import Mathlib

/-!
Verification of the TikTok market-research agent repository.

The development shallowly embeds the three Python source files:
  * `src/tools/tiktok_scrape_tool.py` — input normalization / validation,
    the Apify scrape client, the CrewAI tool wrapper and the standalone CLI;
  * `src/workflows/tiktok_research.py` — the crew runner with its
    JSON-parsing fallback logic.

External collaborators (the Apify backend, `json.loads`, `crew.kickoff`,
`crew.artifacts`) are modelled as explicit environment parameters, and the
side effects of the scrape client (actor call, dataset read, file write)
are recorded in an explicit effect trace.
-/

namespace TikTokMRA

/- ## Python string primitives

Python `str` values are Lean `String`s (a structure around `List Char`).
`str.strip()` is modelled as dropping whitespace characters from both ends
(Python strips a slightly larger set of Unicode whitespace; every claim
here only involves ASCII whitespace). `str.lstrip("#")` drops every
leading `'#'`. -/

def isWS (c : Char) : Bool := c.isWhitespace

/-- `str.strip()` on the underlying character list. -/
def stripL (l : List Char) : List Char :=
  List.rdropWhile isWS (List.dropWhile isWS l)

/-- Python `s.strip()`. -/
def pyStrip (s : String) : String := ⟨stripL s.data⟩

/-- Python `s.lstrip("#")`: removes every leading `'#'` character. -/
def pyLstripHash (s : String) : String := ⟨s.data.dropWhile (· = '#')⟩

/-- Python `s.split(",")` on the underlying character list.
`"".split(",") = [""]` and empty segments are kept, as in Python. -/
def splitCommaL : List Char → List (List Char)
  | [] => [[]]
  | c :: rest =>
    if c = ',' then [] :: splitCommaL rest
    else
      match splitCommaL rest with
      | [] => [[c]]
      | r :: rs => (c :: r) :: rs

/-- Python `s.split(",")`. -/
def pySplitComma (s : String) : List String :=
  (splitCommaL s.data).map String.mk

/-- Python truthiness of a string: non-empty. -/
def strNonEmpty (s : String) : Bool := !(s == "")

/- ## `TikTokHashtagScrapeInput.normalize_hashtags`
(`src/tools/tiktok_scrape_tool.py`, lines 24-31)

The pydantic `pre=True` validator receives an arbitrary Python value.
We split the possible inputs into a string, a list of strings (Python
`str(h)` is the identity on strings), and everything else. -/

/-- The raw Python value handed to the `hashtags` validator. `other`
stands for any value that is neither a `str` nor a `list`; the tag only
records which concrete Python value it is (e.g. an int or a dict). -/
inductive HashtagsArg where
  | str (s : String)
  | list (l : List String)
  | other (tag : String)

/-- `[str(h).strip().lstrip("#") for h in v if str(h).strip()]` -/
def normList (v : List String) : List String :=
  (v.filter (fun h => strNonEmpty (pyStrip h))).map
    (fun h => pyLstripHash (pyStrip h))

/-- `normalize_hashtags` (validator body, lines 27-31). A raised
`ValueError` is an `Except.error`. -/
def normalize_hashtags : HashtagsArg → Except String (List String)
  | .str s =>
      -- v = [h.strip() for h in v.split(",") if h.strip()], then the list branch
      .ok (normList (((pySplitComma s).map pyStrip).filter strNonEmpty))
  | .list l => .ok (normList l)
  | .other _ => .error "hashtags must be a list or comma-separated string"

/- ## JSON values

Values produced by Python's `json.loads` (and Python dicts built from
them). Numbers are modelled as integers; no claim involves fractional
JSON numbers. -/

inductive Json where
  | null
  | bool (b : Bool)
  | num (n : Int)
  | str (s : String)
  | arr (elems : List Json)
  | obj (fields : List (String × Json))

/-- Python truthiness of a JSON value (`None`, `False`, `0`, `""`, `[]`,
`{}` are falsy). -/
def truthy : Json → Bool
  | .null => false
  | .bool b => b
  | .num n => n != 0
  | .str s => strNonEmpty s
  | .arr xs => !xs.isEmpty
  | .obj kvs => !kvs.isEmpty

/-- Boolean prefix test on character lists. -/
def prefixOfB : List Char → List Char → Bool
  | [], _ => true
  | _ :: _, [] => false
  | a :: as, b :: bs => a == b && prefixOfB as bs

/-- Boolean infix test on character lists. -/
def infixOfB (needle : List Char) : List Char → Bool
  | [] => prefixOfB needle []
  | b :: bs => prefixOfB needle (b :: bs) || infixOfB needle bs

/-- Substring test, for Python's `key in some_string`. -/
def strContainsSub (hay needle : String) : Bool :=
  infixOfB needle.data hay.data

/-- Python `key in j` for a parsed JSON value `j`: key lookup on dicts,
element equality on lists, substring on strings; raises `TypeError` on
non-container values. -/
def pyContains (j : Json) (key : String) : Except String Bool :=
  match j with
  | .obj kvs => .ok (kvs.any (fun p => p.1 == key))
  | .arr xs => .ok (xs.any (fun e => match e with
      | .str s => s == key
      | _ => false))
  | .str s => .ok (strContainsSub s key)
  | _ => .error "TypeError: argument is not iterable"

/-- Python dict key lookup. -/
def lookupKey (kvs : List (String × Json)) (k : String) : Option Json :=
  (kvs.find? (fun p => p.1 == k)).map (fun p => p.2)

/-- Python `d[k] = v`: replace in place when the key is present, else
append. -/
def setKey (kvs : List (String × Json)) (k : String) (v : Json) :
    List (String × Json) :=
  if (kvs.find? (fun p => p.1 == k)).isSome then
    kvs.map (fun p => if p.1 == k then (k, v) else p)
  else kvs ++ [(k, v)]

/-- Python `d.update(d')` for two dicts. -/
def updateDict (d : List (String × Json)) (d' : List (String × Json)) :
    List (String × Json) :=
  d'.foldl (fun acc p => setKey acc p.1 p.2) d

/-- Python `j[k]` for a parsed JSON value: dict lookup; a `KeyError` or
`TypeError` is an `Except.error`. -/
def getItem (j : Json) (key : String) : Except String Json :=
  match j with
  | .obj kvs =>
    match lookupKey kvs key with
    | some v => .ok v
    | none => .error "KeyError"
  | .arr _ => .error "TypeError: list indices must be integers or slices, not str"
  | .str _ => .error "TypeError: string indices must be integers"
  | _ => .error "TypeError: value is not subscriptable"

/- ## Scrape client — `tiktok_scrape_tool`
(`src/tools/tiktok_scrape_tool.py`, lines 34-88)

The Apify client is an environment: the token read from
`os.getenv("APIFY_API_TOKEN")`, the behaviour of
`client.actor(...).call(run_input=...)`, and the items yielded by
`client.dataset(id).iterate_items()`. Side effects are recorded in an
effect trace so that "no backend call / no file write" claims are
statable. -/

/-- The Actor run input dict built at lines 58-74. -/
structure RunInput where
  hashtags : List String
  resultsPerPage : Int
  profileScrapeSections : List String
  profileSorting : String
  excludePinnedPosts : Bool
  searchSection : String
  maxProfilesPerQuery : Int
  scrapeRelatedVideos : Bool
  shouldDownloadVideos : Bool
  shouldDownloadCovers : Bool
  shouldDownloadSubtitles : Bool
  shouldDownloadSlideshowImages : Bool
  shouldDownloadAvatars : Bool
  shouldDownloadMusicCovers : Bool
  proxyCountryCode : String
  deriving Repr, DecidableEq

/-- The run handle returned by `client.actor(...).call(...)`. -/
structure ActorRun where
  defaultDatasetId : String
  deriving Repr, DecidableEq

/-- Observable side effects of the scrape client. -/
inductive Effect where
  | actorCalled (actorId : String) (input : RunInput)
  | datasetRead (datasetId : String)
  | fileWritten (path : String) (content : Json)

def Effect.isFileWrite : Effect → Bool
  | .fileWritten _ _ => true
  | _ => false

/-- The Apify environment: credential and backend behaviour. -/
structure ApifyEnv where
  apifyToken : Option String
  actorCall : RunInput → Except String ActorRun
  datasetItems : String → List Json

/-- The `run_input` dict (lines 58-74): only `hashtags` and
`resultsPerPage` come from the caller; every other field is a constant.
Note that `shouldDownloadSubtitles` is `True` in the source (line 69). -/
def mkRunInput (hashtags : List String) (results_per_page : Int) : RunInput :=
  { hashtags := hashtags
    resultsPerPage := results_per_page
    profileScrapeSections := ["videos"]
    profileSorting := "latest"
    excludePinnedPosts := false
    searchSection := ""
    maxProfilesPerQuery := 10
    scrapeRelatedVideos := false
    shouldDownloadVideos := false
    shouldDownloadCovers := false
    shouldDownloadSubtitles := true
    shouldDownloadSlideshowImages := false
    shouldDownloadAvatars := false
    shouldDownloadMusicCovers := false
    proxyCountryCode := "None" }

def apifyActorId : String := "GdWCkxBtKWOsKjdch"

def missingTokenMsg : String :=
  "APIFY_API_TOKEN is not set. Please set it in your environment or .env file."

/-- `tiktok_scrape_tool` (lines 34-88). Returns the result (a raised
exception is an `Except.error`) together with the trace of side effects,
in order. The `for item in ...iterate_items(): res["data"].append(item)`
loop is the `foldl`. -/
def tiktok_scrape_tool (env : ApifyEnv) (hashtags : List String)
    (results_per_page : Int) (write_to_file : Bool) :
    Except String Json × List Effect :=
  match env.apifyToken with
  | none => (.error missingTokenMsg, [])
  | some token =>
    if token = "" then (.error missingTokenMsg, [])
    else
      let run_input := mkRunInput hashtags results_per_page
      match env.actorCall run_input with
      | .error e => (.error e, [.actorCalled apifyActorId run_input])
      | .ok run =>
        let items := env.datasetItems run.defaultDatasetId
        let data := items.foldl (fun acc item => acc ++ [item]) []
        let res := Json.obj [("data", Json.arr data)]
        let effs := [Effect.actorCalled apifyActorId run_input,
                     Effect.datasetRead run.defaultDatasetId]
        if write_to_file then (.ok res, effs ++ [.fileWritten "result.json" res])
        else (.ok res, effs)

/- ## Capability wrapper — `TikTokHashtagScrapeTool`
(lines 91-106) plus the pydantic validation of its `args_schema`. -/

/-- `TikTokHashtagScrapeTool._run` (lines 101-106): always delegates with
`write_to_file=False`. -/
def TikTokHashtagScrapeTool_run (env : ApifyEnv) (hashtags : List String)
    (results_per_page : Int) : Except String Json × List Effect :=
  tiktok_scrape_tool env hashtags results_per_page false

/-- Validation of `TikTokHashtagScrapeInput`: the `normalize_hashtags`
validator (lines 24-31) followed by the `ge=1, le=50` bound on
`results_per_page` (lines 20-22). -/
def TikTokHashtagScrapeInput_validate (hashtags : HashtagsArg)
    (results_per_page : Int) : Except String (List String × Int) :=
  match normalize_hashtags hashtags with
  | .error e => .error e
  | .ok hs =>
    if 1 ≤ results_per_page ∧ results_per_page ≤ 50 then .ok (hs, results_per_page)
    else .error "results_per_page must be in the range 1 to 50"

/-- The agent-facing invocation path: schema validation, then `_run`.
A validation failure never reaches the scrape client, so its trace is
empty. -/
def wrapperInvoke (env : ApifyEnv) (hashtags : HashtagsArg)
    (results_per_page : Int) : Except String Json × List Effect :=
  match TikTokHashtagScrapeInput_validate hashtags results_per_page with
  | .error e => (.error e, [])
  | .ok (hs, n) => TikTokHashtagScrapeTool_run env hs n

/- ## Standalone CLI (`__main__` block, lines 109-159) -/

/-- `[h.strip().lstrip("#") for h in args.hashtags.split(",") if h.strip()]`
(line 147). -/
def cliNormalizeHashtags (s : String) : List String :=
  ((pySplitComma s).filter (fun h => strNonEmpty (pyStrip h))).map
    (fun h => pyLstripHash (pyStrip h))

/-- The scrape CLI: token-flag override of the environment variable
(`if args.apify_token:` is false for an empty string), credential check,
hashtag parsing, then `tiktok_scrape_tool(..., write_to_file=True)`.
`sys.exit(1)` paths are `Except.error`. There is no range check on
`--results-per-page`. -/
def scrape_cli_main (env0 : ApifyEnv) (hashtagsArg : String)
    (apifyTokenArg : Option String) (results_per_page : Int) :
    Except String Json × List Effect :=
  let env := match apifyTokenArg with
    | some t => if t ≠ "" then { env0 with apifyToken := some t } else env0
    | none => env0
  match env.apifyToken with
  | none =>
    (.error "Error: APIFY_API_TOKEN is not set and --apify-token was not provided.", [])
  | some t =>
    if t = "" then
      (.error "Error: APIFY_API_TOKEN is not set and --apify-token was not provided.", [])
    else
      let hashtags := cliNormalizeHashtags hashtagsArg
      if hashtags.isEmpty then
        (.error "Error: --hashtags must contain at least one value.", [])
      else tiktok_scrape_tool env hashtags results_per_page true

/- ## Runner — `run_search_query_agent`
(`src/workflows/tiktok_research.py`, lines 115-164)

`crew.kickoff()`, `crew.artifacts` and `json.loads` are environment
parameters. `_safe_json_loads` is `loads` itself: it returns `none`
instead of raising. -/

/-- The value returned by `crew.kickoff()`: a string, a dict, or anything
else (`parsed` stays `None` for the latter). -/
inductive CrewRaw where
  | str (s : String)
  | dict (fields : List (String × Json))
  | other

/-- A value of the `crew.artifacts` dict: only `isinstance(v, str)`
values are inspected by the loop. -/
inductive ArtifactVal where
  | str (s : String)
  | nonstr

/-- The runner's environment. `artifacts = none` models every case in
which the `for` loop is skipped wholesale: `crew.artifacts` raising
(caught at lines 148-151), being `None`, being falsy, or not being a
dict. `artifacts = some d` models a dict (an empty dict is falsy and also
skips the loop). -/
structure CrewEnv where
  loads : String → Option Json
  kickoff : CrewRaw
  artifacts : Option (List (String × ArtifactVal))

/-- The `parsed` value after lines 139-143. -/
def parsedOf (env : CrewEnv) : Option Json :=
  match env.kickoff with
  | .str s => env.loads s
  | .dict kvs => some (.obj kvs)
  | .other => none

/-- The artifact-scanning `for` loop (lines 157-161), threading the
`output` dict. `if maybe and "hashtags" in maybe and "hashtags" not in
output:` evaluates left to right; the membership test on a non-container
`maybe` raises. -/
def scanArtifacts (loads : String → Option Json) :
    List (String × ArtifactVal) → List (String × Json) →
    Except String (List (String × Json))
  | [], output => .ok output
  | (_, v) :: rest, output =>
    match v with
    | .nonstr => scanArtifacts loads rest output
    | .str s =>
      match loads s with
      | none => scanArtifacts loads rest output
      | some maybe =>
        if truthy maybe then
          match pyContains maybe "hashtags" with
          | .error e => .error e
          | .ok b =>
            if b then
              if (lookupKey output "hashtags").isSome then
                scanArtifacts loads rest output
              else
                match getItem maybe "hashtags" with
                | .error e => .error e
                | .ok hv => scanArtifacts loads rest (setKey output "hashtags" hv)
            else scanArtifacts loads rest output
        else scanArtifacts loads rest output

/-- `run_search_query_agent` (lines 115-164), given the environment. An
uncaught Python exception is an `Except.error`.
`output.update(parsed)` is modelled for dict-valued `parsed` and raises
otherwise (Python's `dict.update` on the remaining truthy JSON shapes
raises too, except for exotic iterables of two-character strings, which
no claim involves). -/
def run_search_query_agent (env : CrewEnv) : Except String Json :=
  let parsed := parsedOf env
  -- `if not parsed or "results" not in parsed:` (line 146)
  let needFallback : Except String Bool :=
    match parsed with
    | none => .ok true
    | some p =>
      if truthy p then
        match pyContains p "results" with
        | .error e => .error e
        | .ok b => .ok (!b)
      else .ok true
  match needFallback with
  | .error e => .error e
  | .ok false =>
    -- `return parsed` (line 164); `parsed` is some value here
    match parsed with
    | some p => .ok p
    | none => .ok Json.null
  | .ok true =>
    -- `output = {}` then `if parsed: output.update(parsed)` (153-155)
    let step1 : Except String (List (String × Json)) :=
      match parsed with
      | none => .ok []
      | some p =>
        if truthy p then
          match p with
          | .obj kvs => .ok (updateDict [] kvs)
          | _ => .error "TypeError: dict.update argument is not a mapping"
        else .ok []
    match step1 with
    | .error e => .error e
    | .ok out0 =>
      let scanned : Except String (List (String × Json)) :=
        match env.artifacts with
        | some arts => if arts.isEmpty then .ok out0 else scanArtifacts env.loads arts out0
        | none => .ok out0
      match scanned with
      | .error e => .error e
      | .ok output =>
        -- `return output or {"error": "Could not parse crew output"}` (162)
        if output.isEmpty then
          .ok (Json.obj [("error", Json.str "Could not parse crew output")])
        else .ok (Json.obj output)

/- ## Concrete environments used to evaluate the development -/

/-- A concrete Apify backend stub: credential present, the actor call
succeeds with dataset `"ds1"`, and the dataset yields three items. -/
def stubEnv : ApifyEnv :=
  { apifyToken := some "token"
    actorCall := fun _ => .ok ⟨"ds1"⟩
    datasetItems := fun _ => [.num 1, .num 2, .num 3] }

/-- A crew run whose terminal output is not valid JSON and whose single
intermediate artifact parses to the bare number `5`. -/
def c4Env : CrewEnv :=
  { loads := fun s => if s = "5" then some (.num 5) else none
    kickoff := .str "bad"
    artifacts := some [("task1", .str "5")] }

/-- A crew run whose terminal output parses to `{"hashtags": ["a"]}`
(no `"results"` key) and whose single intermediate artifact parses to
`{"hashtags": ["b"]}`. -/
def c5Env : CrewEnv :=
  { loads := fun s =>
      if s = "t" then some (.obj [("hashtags", .arr [.str "a"])])
      else if s = "u" then some (.obj [("hashtags", .arr [.str "b"])])
      else none
    kickoff := .str "t"
    artifacts := some [("x", .str "u")] }

/-- A crew run with unparsable terminal output and no artifacts. -/
def cNoneEnv : CrewEnv :=
  { loads := fun _ => none, kickoff := .str "oops", artifacts := none }

/-- A crew run with unparsable terminal output and one artifact parsing
to `{"hashtags": ["b"]}`. -/
def c5wEnv : CrewEnv :=
  { loads := fun s => if s = "u" then some (.obj [("hashtags", .arr [.str "b"])]) else none
    kickoff := .str "junk"
    artifacts := some [("x", .str "u")] }

/-- A crew run whose terminal output parses to `{"results": {}}`. -/
def c6Env : CrewEnv :=
  { loads := fun s => if s = "R" then some (.obj [("results", .obj [])]) else none
    kickoff := .str "R"
    artifacts := some [("x", .str "ignored")] }

/- ## Artifact-scan predicates

`skippedArtifact` holds of an artifact value that the scan loop passes
over without touching `output` and without raising; `safeArtifact` holds
of one on which the membership test cannot raise. -/

def skippedArtifact (loads : String → Option Json) : ArtifactVal → Prop
  | .nonstr => True
  | .str s =>
    match loads s with
    | none => True
    | some m => truthy m = false ∨ pyContains m "hashtags" = .ok false

def safeArtifact (loads : String → Option Json) : ArtifactVal → Prop
  | .nonstr => True
  | .str s =>
    match loads s with
    | none => True
    | some m => truthy m = false ∨ ∃ b, pyContains m "hashtags" = .ok b

/- ## Helper lemmas about `pyStrip` -/

theorem stripL_idem (l : List Char) : stripL (stripL l) = stripL l := by
  unfold stripL
  have h1 : List.dropWhile isWS (List.rdropWhile isWS (List.dropWhile isWS l)) =
      List.rdropWhile isWS (List.dropWhile isWS l) := by
    cases hA : List.rdropWhile isWS (List.dropWhile isWS l) with
    | nil => rfl
    | cons a A =>
      obtain ⟨t, ht⟩ := List.rdropWhile_prefix isWS (List.dropWhile isWS l)
      rw [hA] at ht
      have hne : List.dropWhile isWS l ≠ [] := by
        rw [← ht]; simp
      have hhead : (List.dropWhile isWS l).head hne = a := by
        rw [List.head_eq_iff_head?_eq_some hne, ← ht]
        rfl
      have hnp : ¬ isWS a = true := by
        have h0 := List.head_dropWhile_not isWS l hne
        rw [hhead] at h0
        simp [h0]
      rw [List.dropWhile_cons_of_neg hnp]
  rw [h1, List.rdropWhile_idempotent]

theorem pyStrip_idem (s : String) : pyStrip (pyStrip s) = pyStrip s := by
  show (⟨stripL (stripL s.data)⟩ : String) = ⟨stripL s.data⟩
  rw [stripL_idem]

theorem normList_cons_pos (h : String) (t : List String)
    (hb : strNonEmpty (pyStrip h) = true) :
    normList (h :: t) = pyLstripHash (pyStrip h) :: normList t := by
  simp [normList, List.filter_cons, hb]

theorem normList_cons_neg (h : String) (t : List String)
    (hb : strNonEmpty (pyStrip h) = false) :
    normList (h :: t) = normList t := by
  simp [normList, List.filter_cons, hb]

/-- Applying the list-branch normalization to a pre-stripped, pre-filtered
list gives the same result as applying it to the raw list. This is the
heart of the string/list agreement of the validator. -/
theorem normList_map_strip_filter (l : List String) :
    normList ((l.map pyStrip).filter strNonEmpty) = normList l := by
  induction l with
  | nil => rfl
  | cons h t ih =>
    cases hb : strNonEmpty (pyStrip h) with
    | false =>
      rw [List.map_cons, List.filter_cons]
      simp only [hb, Bool.false_eq_true, if_false]
      rw [ih, normList_cons_neg _ _ hb]
    | true =>
      rw [List.map_cons, List.filter_cons]
      simp only [hb, if_true]
      rw [normList_cons_pos _ _ (by rw [pyStrip_idem]; exact hb),
        normList_cons_pos _ _ hb, pyStrip_idem, ih]

/- ## Helper lemmas about dicts and the artifact scan -/

theorem foldl_append_eq (l : List Json) (init : List Json) :
    l.foldl (fun acc item => acc ++ [item]) init = init ++ l := by
  induction l generalizing init with
  | nil => simp
  | cons h t ih => simp [List.foldl_cons, ih]

theorem lookupKey_cons_pos {q : String × Json} {rest : List (String × Json)}
    {k : String} (h : (q.1 == k) = true) : lookupKey (q :: rest) k = some q.2 := by
  unfold lookupKey
  rw [List.find?_cons_of_pos (p := fun x => x.1 == k) (a := q) rest h]
  rfl

theorem lookupKey_cons_neg {q : String × Json} {rest : List (String × Json)}
    {k : String} (h : (q.1 == k) = false) : lookupKey (q :: rest) k = lookupKey rest k := by
  unfold lookupKey
  rw [List.find?_cons_of_neg (p := fun x => x.1 == k) (a := q) rest (by simp [h])]

theorem lookupKey_any_true {kvs : List (String × Json)} {k : String} {v : Json}
    (h : lookupKey kvs k = some v) : (kvs.any fun p => p.1 == k) = true := by
  induction kvs with
  | nil => simp [lookupKey] at h
  | cons q rest ih =>
    cases hq : q.1 == k with
    | true => simp [List.any_cons, hq]
    | false =>
      rw [lookupKey_cons_neg hq] at h
      simp [List.any_cons, hq, ih h]

theorem lookupKey_any_false {kvs : List (String × Json)} {k : String}
    (h : lookupKey kvs k = none) : (kvs.any fun p => p.1 == k) = false := by
  induction kvs with
  | nil => rfl
  | cons q rest ih =>
    cases hq : q.1 == k with
    | true => rw [lookupKey_cons_pos hq] at h; cases h
    | false =>
      rw [lookupKey_cons_neg hq] at h
      simp [List.any_cons, hq, ih h]

theorem isEmpty_false_of_lookup {kvs : List (String × Json)} {k : String} {v : Json}
    (h : lookupKey kvs k = some v) : kvs.isEmpty = false := by
  cases kvs with
  | nil => simp [lookupKey] at h
  | cons q rest => rfl

theorem lookupKey_map_setfn {d : List (String × Json)} {k k' : String} {v : Json}
    (h : (k' == k) = false) :
    lookupKey (d.map fun p => if p.1 == k' then (k', v) else p) k = lookupKey d k := by
  induction d with
  | nil => rfl
  | cons q rest ih =>
    cases hq : q.1 == k' with
    | true =>
      have hq1 : q.1 = k' := by simpa using hq
      simp only [List.map_cons, hq, if_true]
      rw [lookupKey_cons_neg h, lookupKey_cons_neg (show (q.1 == k) = false by rw [hq1]; exact h), ih]
    | false =>
      simp only [List.map_cons, hq, Bool.false_eq_true, if_false]
      cases hqk : q.1 == k with
      | true => rw [lookupKey_cons_pos hqk, lookupKey_cons_pos hqk]
      | false => rw [lookupKey_cons_neg hqk, lookupKey_cons_neg hqk, ih]

theorem lookupKey_append_ne {d : List (String × Json)} {k k' : String} {v : Json}
    (h : (k' == k) = false) : lookupKey (d ++ [(k', v)]) k = lookupKey d k := by
  induction d with
  | nil => rw [List.nil_append, lookupKey_cons_neg h]
  | cons q rest ih =>
    cases hq : q.1 == k with
    | true => rw [List.cons_append, lookupKey_cons_pos hq, lookupKey_cons_pos hq]
    | false => rw [List.cons_append, lookupKey_cons_neg hq, lookupKey_cons_neg hq, ih]

theorem lookupKey_setKey_ne {d : List (String × Json)} {k k' : String} {v : Json}
    (h : (k' == k) = false) : lookupKey (setKey d k' v) k = lookupKey d k := by
  unfold setKey
  by_cases hf : (d.find? fun p => p.1 == k').isSome
  · rw [if_pos hf]; exact lookupKey_map_setfn h
  · rw [if_neg hf]; exact lookupKey_append_ne h

theorem setKey_absent {d : List (String × Json)} {k : String} {v : Json}
    (h : lookupKey d k = none) : setKey d k v = d ++ [(k, v)] := by
  have hf : (d.find? fun p => p.1 == k) = none := by
    cases hf : d.find? fun p => p.1 == k with
    | none => rfl
    | some p => unfold lookupKey at h; rw [hf] at h; cases h
  simp [setKey, hf]

theorem lookupKey_append_self {d : List (String × Json)} {k : String} {v : Json}
    (h : lookupKey d k = none) : lookupKey (d ++ [(k, v)]) k = some v := by
  induction d with
  | nil => rw [List.nil_append, lookupKey_cons_pos (show (k == k) = true by simp)]
  | cons q rest ih =>
    cases hq : q.1 == k with
    | true => rw [lookupKey_cons_pos hq] at h; cases h
    | false =>
      rw [lookupKey_cons_neg hq] at h
      rw [List.cons_append, lookupKey_cons_neg hq]
      exact ih h

theorem lookupKey_updateDict_none {kvs : List (String × Json)} {k : String}
    (h1 : lookupKey kvs k = none) :
    ∀ d, lookupKey d k = none → lookupKey (updateDict d kvs) k = none := by
  induction kvs with
  | nil => exact fun d hd => hd
  | cons p rest ih =>
    intro d hd
    cases hp : p.1 == k with
    | true => rw [lookupKey_cons_pos hp] at h1; cases h1
    | false =>
      rw [lookupKey_cons_neg hp] at h1
      show lookupKey (updateDict (setKey d p.1 p.2) rest) k = none
      exact ih h1 _ (by rw [lookupKey_setKey_ne hp]; exact hd)

theorem scanArtifacts_cons_skipped {loads : String → Option Json} {n : String}
    {v : ArtifactVal} {rest : List (String × ArtifactVal)} {out : List (String × Json)}
    (h : skippedArtifact loads v) :
    scanArtifacts loads ((n, v) :: rest) out = scanArtifacts loads rest out := by
  cases v with
  | nonstr => rfl
  | str s =>
    cases hls : loads s with
    | none => simp [scanArtifacts, hls]
    | some m =>
      simp only [skippedArtifact] at h
      rw [hls] at h
      rcases h with h | h
      · simp [scanArtifacts, hls, h]
      · cases htr : truthy m with
        | false => simp [scanArtifacts, hls, htr]
        | true => simp [scanArtifacts, hls, htr, h]

theorem scanArtifacts_append_skipped {loads : String → Option Json}
    {pre rest : List (String × ArtifactVal)} {out : List (String × Json)}
    (h : ∀ a ∈ pre, skippedArtifact loads a.2) :
    scanArtifacts loads (pre ++ rest) out = scanArtifacts loads rest out := by
  induction pre with
  | nil => rfl
  | cons a pre ih =>
    obtain ⟨n, v⟩ := a
    rw [List.cons_append, scanArtifacts_cons_skipped (h _ (List.mem_cons_self _ _))]
    exact ih (fun x hx => h x (List.mem_cons_of_mem _ hx))

theorem scanArtifacts_all_skipped {loads : String → Option Json}
    {arts : List (String × ArtifactVal)} {out : List (String × Json)}
    (h : ∀ a ∈ arts, skippedArtifact loads a.2) :
    scanArtifacts loads arts out = .ok out := by
  have h2 := @scanArtifacts_append_skipped loads arts [] out h
  rwa [List.append_nil] at h2

theorem scanArtifacts_safe_haskey {loads : String → Option Json}
    {arts : List (String × ArtifactVal)} {out : List (String × Json)}
    (hk : (lookupKey out "hashtags").isSome = true)
    (h : ∀ a ∈ arts, safeArtifact loads a.2) :
    scanArtifacts loads arts out = .ok out := by
  induction arts with
  | nil => rfl
  | cons a rest ih =>
    obtain ⟨n, v⟩ := a
    have hv := h _ (List.mem_cons_self _ _)
    have ihr := ih (fun x hx => h x (List.mem_cons_of_mem _ hx))
    cases v with
    | nonstr => exact ihr
    | str s =>
      cases hls : loads s with
      | none => simpa [scanArtifacts, hls] using ihr
      | some m =>
        simp only [safeArtifact] at hv
        rw [hls] at hv
        cases htr : truthy m with
        | false => simpa [scanArtifacts, hls, htr] using ihr
        | true =>
          rcases hv with hv | ⟨b, hb⟩
          · rw [htr] at hv; cases hv
          · cases b with
            | false => simpa [scanArtifacts, hls, htr, hb] using ihr
            | true => simpa [scanArtifacts, hls, htr, hb, hk] using ihr

/- ## Claim theorems -/

/-- C1 (counterexample): the claim says subtitle downloads are disabled,
but the request body built by the scrape client sets
`shouldDownloadSubtitles` to `True` (line 69 of the source). The concrete
call below reaches the backend, and the request it carries has subtitle
downloads enabled. -/
theorem C1_counterexample :
    (tiktok_scrape_tool stubEnv ["cats"] 10 false).2 =
      [Effect.actorCalled apifyActorId (mkRunInput ["cats"] 10),
       Effect.datasetRead "ds1"] ∧
    (mkRunInput ["cats"] 10).shouldDownloadSubtitles = true :=
  ⟨rfl, rfl⟩

/-- C1 (amended): every request body that reaches the backend has video,
cover and avatar downloads disabled, subtitle downloads enabled, profile
sorting "latest" and pinned posts included, and the whole flag bundle is
the constant `mkRunInput hashtags rpp` — independent of everything except
the hashtags and page size themselves. -/
theorem C1_run_input_flags (env : ApifyEnv) (hashtags : List String)
    (rpp : Int) (wtf : Bool) (aid : String) (inp : RunInput)
    (hmem : Effect.actorCalled aid inp ∈ (tiktok_scrape_tool env hashtags rpp wtf).2) :
    inp.shouldDownloadVideos = false ∧ inp.shouldDownloadCovers = false ∧
    inp.shouldDownloadSubtitles = true ∧ inp.shouldDownloadAvatars = false ∧
    inp.profileSorting = "latest" ∧ inp.excludePinnedPosts = false ∧
    inp = mkRunInput hashtags rpp := by
  have hinp : inp = mkRunInput hashtags rpp := by
    cases henv : env.apifyToken with
    | none => simp [tiktok_scrape_tool, henv] at hmem
    | some token =>
      by_cases ht : token = ""
      · simp [tiktok_scrape_tool, henv, ht] at hmem
      · cases hc : env.actorCall (mkRunInput hashtags rpp) with
        | error e =>
          simp [tiktok_scrape_tool, henv, ht, hc] at hmem
          exact hmem.2
        | ok run =>
          cases wtf <;> simp [tiktok_scrape_tool, henv, ht, hc] at hmem <;>
            exact hmem.2
  subst hinp
  exact ⟨rfl, rfl, rfl, rfl, rfl, rfl, rfl⟩

/-- C1 witness: the amended theorem applied to the concrete stub backend. -/
theorem C1_run_input_flags_witness :
    (mkRunInput ["cats"] 10).shouldDownloadVideos = false ∧
    (mkRunInput ["cats"] 10).shouldDownloadCovers = false ∧
    (mkRunInput ["cats"] 10).shouldDownloadSubtitles = true ∧
    (mkRunInput ["cats"] 10).shouldDownloadAvatars = false ∧
    (mkRunInput ["cats"] 10).profileSorting = "latest" ∧
    (mkRunInput ["cats"] 10).excludePinnedPosts = false ∧
    mkRunInput ["cats"] 10 = mkRunInput ["cats"] 10 :=
  C1_run_input_flags stubEnv ["cats"] 10 false apifyActorId (mkRunInput ["cats"] 10)
    (List.Mem.head _)

/-- C3 (counterexample): an entry consisting of a single `"#"` survives
the blank filter (it is non-blank before hash stripping) and normalizes
to the empty string, so the output is not free of blank entries; and an
entry `"# cats"` keeps the whitespace exposed after the leading `'#'` is
removed, so output elements are not always trimmed. -/
theorem C3_counterexample :
    normalize_hashtags (.list ["#"]) = .ok [""] ∧
    normalize_hashtags (.list ["# cats"]) = .ok [" cats"] :=
  ⟨rfl, rfl⟩

/-- C3 (amended): normalization first trims each entry of surrounding
whitespace and then removes every leading `'#'` (so case is preserved,
and whitespace uncovered by hash removal remains); entries blank after
trimming are removed, while entries reduced to the empty string by hash
stripping are kept; a comma-separated string agrees with the
corresponding split-up list input. -/
theorem C3_normalize (s : String) (l : List String) :
    normalize_hashtags (.str s) = normalize_hashtags (.list (pySplitComma s)) ∧
    normalize_hashtags (.list l) =
      .ok ((l.filter (fun h => strNonEmpty (pyStrip h))).map
        (fun h => pyLstripHash (pyStrip h))) :=
  ⟨congrArg Except.ok (normList_map_strip_filter (pySplitComma s)), rfl⟩

/-- C7: with the scraping credential unset (or empty, which
`if not token:` also treats as missing), the scrape client raises at once:
the result is the `RuntimeError` and the effect trace is empty — no actor
call, no dataset read, no file write. -/
theorem C7_missing_token (env : ApifyEnv) (hs : List String) (rpp : Int)
    (wtf : Bool) (h : env.apifyToken = none ∨ env.apifyToken = some "") :
    tiktok_scrape_tool env hs rpp wtf = (.error missingTokenMsg, []) := by
  rcases h with h | h <;> simp [tiktok_scrape_tool, h]

/-- C7 witness. -/
theorem C7_missing_token_witness :
    tiktok_scrape_tool { stubEnv with apifyToken := none } ["x"] 10 true =
      (.error missingTokenMsg, []) :=
  C7_missing_token _ _ _ _ (Or.inl rfl)

/-- C8: on a successful run the scrape client returns a dict with the
single key `"data"` holding exactly the dataset's items, in the order the
dataset yielded them (the append loop is order-preserving). -/
theorem C8_data_order (env : ApifyEnv) (hs : List String) (rpp : Int)
    (wtf : Bool) (t : String) (run : ActorRun)
    (ht : env.apifyToken = some t) (ht' : t ≠ "")
    (hc : env.actorCall (mkRunInput hs rpp) = .ok run) :
    (tiktok_scrape_tool env hs rpp wtf).1 =
      .ok (.obj [("data", .arr (env.datasetItems run.defaultDatasetId))]) := by
  cases wtf <;>
    simp [tiktok_scrape_tool, ht, ht', hc, foldl_append_eq]

/-- C8 witness: the stub dataset yields three items and the result is
`{"data": [1, 2, 3]}`. -/
theorem C8_data_order_witness :
    (tiktok_scrape_tool stubEnv ["a"] 10 false).1 =
      .ok (.obj [("data", .arr (stubEnv.datasetItems "ds1"))]) :=
  C8_data_order stubEnv ["a"] 10 false "token" ⟨"ds1"⟩ rfl (by decide) rfl

/-- C9: the capability wrapper `_run` delegates to the scrape client with
`write_to_file=False` and returns its result unchanged, and on that path
no file-write effect can occur, whatever the backend does. -/
theorem C9_wrapper_no_write (env : ApifyEnv) (hs : List String) (rpp : Int) :
    TikTokHashtagScrapeTool_run env hs rpp = tiktok_scrape_tool env hs rpp false ∧
    (TikTokHashtagScrapeTool_run env hs rpp).2.all (fun e => !e.isFileWrite) = true := by
  refine ⟨rfl, ?_⟩
  cases henv : env.apifyToken with
  | none => simp [TikTokHashtagScrapeTool_run, tiktok_scrape_tool, henv]
  | some token =>
    by_cases ht : token = ""
    · simp [TikTokHashtagScrapeTool_run, tiktok_scrape_tool, henv, ht]
    · cases hc : env.actorCall (mkRunInput hs rpp) with
      | error e =>
        simp [TikTokHashtagScrapeTool_run, tiktok_scrape_tool, henv, ht, hc,
          Effect.isFileWrite]
      | ok run =>
        simp [TikTokHashtagScrapeTool_run, tiktok_scrape_tool, henv, ht, hc,
          Effect.isFileWrite]

/-- C10: any value that is neither a string nor a list is rejected by the
`normalize_hashtags` validator with the `ValueError` of line 31. -/
theorem C10_nonlist_rejected (tag : String) :
    normalize_hashtags (.other tag) =
      .error "hashtags must be a list or comma-separated string" :=
  rfl

/-- C2 (counterexample): the standalone CLI performs no range check on
`--results-per-page`; with a valid token it forwards `100` straight to
the backend — the actor call happens (and the file is written) with
`resultsPerPage = 100`, well outside `[1, 50]`. -/
theorem C2_counterexample :
    (scrape_cli_main stubEnv "cats" none 100).2 =
      [Effect.actorCalled apifyActorId (mkRunInput ["cats"] 100),
       Effect.datasetRead "ds1",
       Effect.fileWritten "result.json"
         (Json.obj [("data", Json.arr [.num 1, .num 2, .num 3])])] ∧
    (mkRunInput ["cats"] 100).resultsPerPage = 100 ∧ ¬(100 : Int) ≤ 50 :=
  ⟨rfl, rfl, by norm_num⟩

/-- C2 (amended): only the schema-validated wrapper path rejects a
`results_per_page` outside `[1, 50]` before any backend call (error, empty
trace); a direct call of `tiktok_scrape_tool` and the standalone CLI
forward any page size, in range or not, to the backend. -/
theorem C2_range_validation :
    (∀ (env : ApifyEnv) (h : HashtagsArg) (rpp : Int),
      ¬(1 ≤ rpp ∧ rpp ≤ 50) →
      (wrapperInvoke env h rpp).2 = [] ∧
        ∃ e, (wrapperInvoke env h rpp).1 = .error e) ∧
    (∀ (env : ApifyEnv) (hs : List String) (rpp : Int) (wtf : Bool)
        (t : String) (run : ActorRun),
      env.apifyToken = some t → t ≠ "" →
      env.actorCall (mkRunInput hs rpp) = .ok run →
      Effect.actorCalled apifyActorId (mkRunInput hs rpp) ∈
        (tiktok_scrape_tool env hs rpp wtf).2) ∧
    (∀ (env : ApifyEnv) (s : String) (rpp : Int) (t : String) (run : ActorRun),
      env.apifyToken = some t → t ≠ "" →
      cliNormalizeHashtags s ≠ [] →
      env.actorCall (mkRunInput (cliNormalizeHashtags s) rpp) = .ok run →
      Effect.actorCalled apifyActorId (mkRunInput (cliNormalizeHashtags s) rpp) ∈
        (scrape_cli_main env s none rpp).2) := by
  refine ⟨?_, ?_, ?_⟩
  · intro env h rpp hout
    cases hn : normalize_hashtags h with
    | error e =>
      refine ⟨?_, e, ?_⟩ <;>
        simp [wrapperInvoke, TikTokHashtagScrapeInput_validate, hn]
    | ok hs =>
      constructor
      · simp [wrapperInvoke, TikTokHashtagScrapeInput_validate, hn, hout]
      · exact ⟨"results_per_page must be in the range 1 to 50",
          by simp [wrapperInvoke, TikTokHashtagScrapeInput_validate, hn, hout]⟩
  · intro env hs rpp wtf t run ht ht' hc
    cases wtf <;> simp [tiktok_scrape_tool, ht, ht', hc]
  · intro env s rpp t run ht ht' hne hc
    have hie : (cliNormalizeHashtags s).isEmpty = false := by
      cases hcn : cliNormalizeHashtags s with
      | nil => exact absurd hcn hne
      | cons a l => rfl
    simp [scrape_cli_main, ht, ht', hie, tiktok_scrape_tool, hc]

/-- C2 witness: the three parts of the amended claim at concrete inputs
(wrapper rejects 100; direct call and CLI forward 100 to the backend). -/
theorem C2_range_validation_witness :
    ((wrapperInvoke stubEnv (.list ["cats"]) 100).2 = [] ∧
      ∃ e, (wrapperInvoke stubEnv (.list ["cats"]) 100).1 = .error e) ∧
    Effect.actorCalled apifyActorId (mkRunInput ["cats"] 100) ∈
      (tiktok_scrape_tool stubEnv ["cats"] 100 false).2 ∧
    Effect.actorCalled apifyActorId (mkRunInput (cliNormalizeHashtags "cats") 100) ∈
      (scrape_cli_main stubEnv "cats" none 100).2 :=
  ⟨C2_range_validation.1 stubEnv (.list ["cats"]) 100 (by norm_num),
   C2_range_validation.2.1 stubEnv ["cats"] 100 false "token" ⟨"ds1"⟩ rfl
     (by decide) rfl,
   C2_range_validation.2.2 stubEnv "cats" 100 "token" ⟨"ds1"⟩ rfl (by decide)
     (by decide) rfl⟩

/-- C4 (counterexample): with an unparsable terminal output and a single
intermediate artifact parsing to the bare number `5` — which is not a
JSON object containing `"hashtags"`, so the claim's hypotheses hold — the
runner raises a `TypeError` from `"hashtags" in 5` instead of returning
the error object. -/
theorem C4_counterexample :
    run_search_query_agent c4Env = .error "TypeError: argument is not iterable" ∧
    c4Env.loads "bad" = none ∧
    c4Env.loads "5" = some (.num 5) :=
  ⟨rfl, rfl, rfl⟩

/-- C4 (amended): if the terminal value is not valid JSON and every
intermediate artifact is either not a string, unparsable, falsy, or a
parsed value whose membership test for `"hashtags"` evaluates to false
without raising (in particular, no artifact parses to a bare number or
boolean), the runner returns exactly
`{"error": "Could not parse crew output"}` and does not raise. -/
theorem C4_error_fallback (env : CrewEnv) (s : String)
    (hk : env.kickoff = .str s) (hl : env.loads s = none)
    (ha : ∀ arts, env.artifacts = some arts →
      ∀ a ∈ arts, skippedArtifact env.loads a.2) :
    run_search_query_agent env =
      .ok (.obj [("error", .str "Could not parse crew output")]) := by
  have hp : parsedOf env = none := by simp [parsedOf, hk, hl]
  unfold run_search_query_agent
  rw [hp]
  cases hart : env.artifacts with
  | none => simp
  | some arts =>
    have hscan : scanArtifacts env.loads arts [] = .ok [] :=
      scanArtifacts_all_skipped (ha arts hart)
    cases arts with
    | nil => simp
    | cons a l => simp [hscan]

/-- C4 witness: unparsable terminal output, no artifacts. -/
theorem C4_error_fallback_witness :
    run_search_query_agent cNoneEnv =
      .ok (.obj [("error", .str "Could not parse crew output")]) :=
  C4_error_fallback cNoneEnv "oops" rfl rfl (fun _ h => nomatch h)

/-- C5 (counterexample): the terminal output parses to
`{"hashtags": ["a"]}` — no `"results"` key, so the claim's hypotheses
hold — and the single artifact parses to the JSON object
`{"hashtags": ["b"]}`; yet the returned object keeps the terminal
`"hashtags"` value `["a"]` and not the artifact's `["b"]`. -/
theorem C5_counterexample :
    run_search_query_agent c5Env = .ok (.obj [("hashtags", .arr [.str "a"])]) ∧
    c5Env.loads "u" = some (.obj [("hashtags", .arr [.str "b"])]) ∧
    Json.arr [.str "a"] ≠ Json.arr [.str "b"] :=
  ⟨rfl, rfl, by simp⟩

/-- C5 (amended): when the fallback branch is taken and the terminal
output did not itself contribute a `"hashtags"` key (it is unparsable,
falsy, or an object lacking both `"results"` and `"hashtags"`), the
returned object carries the `"hashtags"` value of the first artifact that
parses to a JSON object with that key — artifacts before it being passed
over harmlessly, and artifacts after it (on which the membership test
does not raise) unable to overwrite it. -/
theorem C5_first_artifact (env : CrewEnv) (pre post : List (String × ArtifactVal))
    (nm s : String) (mkvs : List (String × Json)) (hv : Json)
    (hterm : parsedOf env = none ∨
      (∃ p, parsedOf env = some p ∧ truthy p = false) ∨
      (∃ kvs, parsedOf env = some (.obj kvs) ∧ lookupKey kvs "results" = none ∧
        lookupKey kvs "hashtags" = none))
    (harts : env.artifacts = some (pre ++ (nm, .str s) :: post))
    (hpre : ∀ a ∈ pre, skippedArtifact env.loads a.2)
    (hload : env.loads s = some (.obj mkvs))
    (hhv : lookupKey mkvs "hashtags" = some hv)
    (hpost : ∀ a ∈ post, safeArtifact env.loads a.2) :
    ∃ out, run_search_query_agent env = .ok (.obj out) ∧
      lookupKey out "hashtags" = some hv := by
  have hcontains : pyContains (.obj mkvs) "hashtags" = .ok true := by
    simp [pyContains, lookupKey_any_true hhv]
  have hartne : (pre ++ (nm, ArtifactVal.str s) :: post).isEmpty = false := by
    cases pre <;> rfl
  have hscan : ∀ out0 : List (String × Json), lookupKey out0 "hashtags" = none →
      scanArtifacts env.loads (pre ++ (nm, .str s) :: post) out0 =
        .ok (out0 ++ [("hashtags", hv)]) := by
    intro out0 h0
    rw [scanArtifacts_append_skipped hpre]
    have hstep : scanArtifacts env.loads ((nm, .str s) :: post) out0 =
        scanArtifacts env.loads post (setKey out0 "hashtags" hv) := by
      simp [scanArtifacts, hload, truthy, isEmpty_false_of_lookup hhv, hcontains,
        h0, getItem, hhv]
    rw [hstep, setKey_absent h0]
    exact scanArtifacts_safe_haskey
      (by rw [lookupKey_append_self h0]; rfl) hpost
  rcases hterm with hp | ⟨p, hp, htr⟩ | ⟨kvs, hp, hres, hhk⟩
  · refine ⟨[("hashtags", hv)], ?_, lookupKey_cons_pos (by simp)⟩
    unfold run_search_query_agent
    rw [hp, harts]
    have h1 := hscan [] rfl
    simp [hartne, h1]
  · refine ⟨[("hashtags", hv)], ?_, lookupKey_cons_pos (by simp)⟩
    unfold run_search_query_agent
    rw [hp, harts]
    have h1 := hscan [] rfl
    simp [hartne, h1, htr]
  · cases hke : kvs.isEmpty with
    | true =>
      have htr : truthy (Json.obj kvs) = false := by simp [truthy, hke]
      refine ⟨[("hashtags", hv)], ?_, lookupKey_cons_pos (by simp)⟩
      unfold run_search_query_agent
      rw [hp, harts]
      have h1 := hscan [] rfl
      simp [hartne, h1, htr]
    | false =>
      have htr : truthy (Json.obj kvs) = true := by simp [truthy, hke]
      have hanyr : (kvs.any fun p => p.1 == "results") = false :=
        lookupKey_any_false hres
      have hout0 : lookupKey (updateDict [] kvs) "hashtags" = none :=
        lookupKey_updateDict_none hhk [] rfl
      have h1 := hscan (updateDict [] kvs) hout0
      refine ⟨updateDict [] kvs ++ [("hashtags", hv)], ?_,
        lookupKey_append_self hout0⟩
      unfold run_search_query_agent
      rw [hp, harts]
      have houtne : (updateDict [] kvs ++ [("hashtags", hv)]).isEmpty = false := by
        cases hu : updateDict [] kvs <;> rfl
      simp [htr, pyContains, hanyr, hartne, h1, houtne]

/-- C5 witness: unparsable terminal output and a single artifact parsing
to `{"hashtags": ["b"]}`. -/
theorem C5_first_artifact_witness :
    ∃ out, run_search_query_agent c5wEnv = .ok (.obj out) ∧
      lookupKey out "hashtags" = some (.arr [.str "b"]) :=
  C5_first_artifact c5wEnv [] [] "x" "u" [("hashtags", .arr [.str "b"])]
    (.arr [.str "b"]) (Or.inl rfl) rfl
    (fun a ha => absurd ha (List.not_mem_nil a)) rfl rfl
    (fun a ha => absurd ha (List.not_mem_nil a))

/-- C6: when the terminal value parses to a JSON object containing a
`"results"` key, the runner returns exactly that parsed object — for any
artifacts whatsoever, which are never consulted. -/
theorem C6_results_passthrough (env : CrewEnv) (s : String)
    (kvs : List (String × Json)) (r : Json)
    (hk : env.kickoff = .str s) (hl : env.loads s = some (.obj kvs))
    (hr : lookupKey kvs "results" = some r) :
    run_search_query_agent env = .ok (.obj kvs) := by
  have hp : parsedOf env = some (.obj kvs) := by simp [parsedOf, hk, hl]
  have hie := isEmpty_false_of_lookup hr
  have hany := lookupKey_any_true hr
  unfold run_search_query_agent
  rw [hp]
  simp [truthy, hie, pyContains, hany]

/-- C6 witness: terminal output `{"results": {}}` with an artifact
present and ignored. -/
theorem C6_results_passthrough_witness :
    run_search_query_agent c6Env = .ok (.obj [("results", .obj [])]) :=
  C6_results_passthrough c6Env "R" [("results", .obj [])] (.obj []) rfl rfl rfl

end TikTokMRA
